import Mathlib

/-!
Verification of the agent workflow scripts in this repository.

Each script threads a mutable state record through a fixed graph of
processing stages; conditional edges (routers) decide whether to loop,
branch to a repair stage, or terminate.  We embed the state records, the
stage functions (with every call to an external collaborator - LLM,
search, subprocess - abstracted as an oracle parameter, since those calls
are external interfaces of the engine), the routers, and a fuel-indexed
executor for each graph, and prove the stated workflow properties.
-/

namespace PyStr

/-- Leftmost occurrence of the pattern `pat` in `text` (index of the first
position at which `pat` is a prefix of the remaining text), or `none`.
This is the search primitive behind Python's substring operators. -/
def findSub (pat : List Char) : List Char → Option Nat
  | [] => if pat.isPrefixOf ([] : List Char) then some 0 else none
  | c :: r =>
    if pat.isPrefixOf (c :: r) then some 0
    else (findSub pat r).map (· + 1)

/-- Python's substring test `pat in text`. -/
def containsSub (pat text : List Char) : Bool :=
  (findSub pat text).isSome

/-- Python's whitespace predicate used by str.strip(). -/
def isSpace (c : Char) : Bool :=
  c = ' ' || c = '\t' || c = '\n' || c = '\r' || c = '\x0b' || c = '\x0c'

/-- Python's str.strip(): remove leading and trailing whitespace. -/
def pyStrip (t : List Char) : List Char :=
  ((t.dropWhile isSpace).reverse.dropWhile isSpace).reverse

end PyStr

namespace CodingAgent

/-- Route labels returned by the coding agent's conditional router
(`should_continue` in coding_agent.py returns the strings "end" and
"retry"; "end" is rendered here as `terminal` because `end` is a Lean
keyword). -/
inductive Route where
  | terminal
  | retry
deriving DecidableEq

/-- MAX_RETRIES from coding_agent.py line 28. -/
def MAX_RETRIES : Nat := 10

/-- should_continue from coding_agent.py lines 323-329, parameterized by
the retry bound (the source reads the module-level constant MAX_RETRIES). -/
def should_continue (maxRetries : Nat) (success : Bool) (iterations : Nat) : Route :=
  if success then Route.terminal
  else if iterations ≥ maxRetries then Route.terminal
  else Route.retry

/-- SandboxState from coding_agent.py lines 35-42. -/
structure SandboxState where
  objective : String
  code : String
  test_code : String
  output : String
  verification_error : Option String
  success : Bool
  iterations : Nat
deriving DecidableEq

/-- A partial state update returned by a stage: `none` means the stage did
not mention the field (langgraph keeps the old value), `some v` means the
stage set the field to `v`.  Every field of SandboxState has overwrite
merge semantics (no field is declared with an aggregating reducer). -/
structure SandboxUpdate where
  objective : Option String := none
  code : Option String := none
  test_code : Option String := none
  output : Option String := none
  verification_error : Option (Option String) := none
  success : Option Bool := none
  iterations : Option Nat := none
deriving DecidableEq

/-- Merge a partial update into the state (langgraph overwrite semantics:
keys present in the partial dict replace the old value, absent keys are
left untouched). -/
def applyUpdate (s : SandboxState) (u : SandboxUpdate) : SandboxState where
  objective := u.objective.getD s.objective
  code := u.code.getD s.code
  test_code := u.test_code.getD s.test_code
  output := u.output.getD s.output
  verification_error := u.verification_error.getD s.verification_error
  success := u.success.getD s.success
  iterations := u.iterations.getD s.iterations

/-- External collaborators of the coding agent, abstracted as oracles:
the three LLM roles (already composed with the markdown extraction the
source applies to the raw response) and the sandboxed script/pytest
execution.  `execResult code test_code` returns the output log and the
success flag exactly as executor_node computes them from the two
subprocess runs. -/
structure Oracles where
  testerResponse : String → String
  coderResponse : SandboxState → String
  execResult : String → String → String × Bool
  verifierResponse : SandboxState → String

/-- Python substring test `sub in s`. -/
def pyContains (sub s : String) : Bool :=
  PyStr.containsSub sub.toList s.toList

/-- tester_node from coding_agent.py lines 118-147: generates the test
suite only on the first pass (`iterations > 0 and state.get("test_code")`
short-circuits to an empty update). -/
def tester_node (o : Oracles) (s : SandboxState) : SandboxUpdate :=
  if s.iterations > 0 ∧ s.test_code ≠ "" then {}
  else { test_code := some (o.testerResponse s.objective) }

/-- coder_node from coding_agent.py lines 149-203: writes the new code,
increments the iteration counter and clears verification_error.  The three
prompt variants only change the text sent to the LLM, which is folded into
the oracle (it sees the full state). -/
def coder_node (o : Oracles) (s : SandboxState) : SandboxUpdate :=
  { code := some (o.coderResponse s)
    iterations := some (s.iterations + 1)
    verification_error := some none }

/-- dependency_manager_node from coding_agent.py lines 205-220: only runs
`poetry add` subprocesses; its state update is empty. -/
def dependency_manager_node (_ : SandboxState) : SandboxUpdate := {}

/-- executor_node from coding_agent.py lines 222-281: every return path
sets exactly the fields output and success, with values determined by the
two subprocess runs (abstracted by the oracle). -/
def executor_node (o : Oracles) (s : SandboxState) : SandboxUpdate :=
  let r := o.execResult s.code s.test_code
  { output := some r.1, success := some r.2 }

/-- verifier_node from coding_agent.py lines 283-319: empty update when
the executor already failed; otherwise accepts iff the vision critique
contains "PASSED", else records the critique (with the "FAILED:" prefix
stripped) and forces success = False. -/
def verifier_node (o : Oracles) (s : SandboxState) : SandboxUpdate :=
  if s.success = false then {}
  else
    let critique := o.verifierResponse s
    if pyContains "PASSED" critique then
      { verification_error := some none, success := some true }
    else
      { verification_error := some (some ((critique.replace "FAILED:" "").trim))
        success := some false }

/-- The five graph nodes of coding_agent.py lines 333-337. -/
inductive Node where
  | tester
  | coder
  | dependency_manager
  | executor
  | verifier
deriving DecidableEq

/-- Dispatch a node name to its stage function. -/
def node_run (o : Oracles) : Node → SandboxState → SandboxUpdate
  | .tester => tester_node o
  | .coder => coder_node o
  | .dependency_manager => dependency_manager_node
  | .executor => executor_node o
  | .verifier => verifier_node o

/-- The edges of coding_agent.py lines 340-345: tester → coder →
dependency_manager → executor → verifier, then the conditional edge maps
"retry" back to coder and "end" to END (`none`).  Routers are evaluated on
the state after the node's update has been merged. -/
def nextNode (maxRetries : Nat) : Node → SandboxState → Option Node
  | .tester, _ => some .coder
  | .coder, _ => some .dependency_manager
  | .dependency_manager, _ => some .executor
  | .executor, _ => some .verifier
  | .verifier, s =>
      match should_continue maxRetries s.success s.iterations with
      | .terminal => none
      | .retry => some .coder

/-- Fuel-indexed executor for the coding agent graph, additionally
counting how many times the coder node (the head of the retry loop body)
executes.  Returns `none` when the fuel runs out before END is reached. -/
def run (maxRetries : Nat) (o : Oracles) :
    Nat → Node → SandboxState → Nat → Option (SandboxState × Nat)
  | 0, _, _, _ => none
  | fuel + 1, n, s, coderCount =>
    let coderCount' := if n = Node.coder then coderCount + 1 else coderCount
    let s' := applyUpdate s (node_run o n s)
    match nextNode maxRetries n s' with
    | none => some (s', coderCount')
    | some n' => run maxRetries o fuel n' s' coderCount'

/-- The initial state passed by coding_agent.py lines 356-364 (with the
objective abstracted to the empty string; no stage reads it except through
the oracles). -/
def initState : SandboxState :=
  { objective := ""
    code := ""
    test_code := ""
    output := ""
    verification_error := none
    success := false
    iterations := 0 }

/-- Oracles under which validation never succeeds: the sandboxed
script/test execution always reports failure. -/
def failingOracles : Oracles where
  testerResponse := fun _ => ""
  coderResponse := fun _ => ""
  execResult := fun _ _ => ("", false)
  verifierResponse := fun _ => ""

end CodingAgent

namespace MathAgent

/-- MAX_RETRIES from math_agent.py line 26. -/
def MAX_RETRIES : Nat := 6

/-- The two error labels of math_agent.py (the error_type field is
Literal["SYNTAX", "LOGIC"]). -/
inductive ErrorType where
  | SYNTAX
  | LOGIC
deriving DecidableEq

/-- The classifier marker "TYPE: LOGIC" checked by arbiter_node. -/
def logicMarker : List Char := "TYPE: LOGIC".toList

/-- The classifier marker "TYPE: SYNTAX" checked by arbiter_node. -/
def syntaxMarker : List Char := "TYPE: SYNTAX".toList

/-- The label-parsing logic of arbiter_node (math_agent.py lines 222-229):
default SYNTAX, overridden to LOGIC when the response contains
"TYPE: LOGIC", else to SYNTAX when it contains "TYPE: SYNTAX".  The
LOGIC test comes first, so it wins when both markers occur. -/
def classifyError (response : List Char) : ErrorType :=
  if PyStr.containsSub logicMarker response then ErrorType.LOGIC
  else if PyStr.containsSub syntaxMarker response then ErrorType.SYNTAX
  else ErrorType.SYNTAX

/-- Route labels returned by the math agent's router (math_agent.py
lines 239-252 returns the strings "end", "formalizer", "theorist";
"end" is rendered as `terminal`). -/
inductive Route where
  | terminal
  | formalizer
  | theorist
deriving DecidableEq

/-- router from math_agent.py lines 239-252, parameterized by the retry
bound (the source reads the module-level constant MAX_RETRIES). -/
def router (maxRetries : Nat) (success : Bool) (iterations : Nat)
    (error_type : Option ErrorType) : Route :=
  if success then Route.terminal
  else if iterations ≥ maxRetries then Route.terminal
  else match error_type with
    | some ErrorType.SYNTAX => Route.formalizer
    | some ErrorType.LOGIC => Route.theorist
    | none => Route.terminal

/-- The route taken after a failed compile: arbiter_node stores
`classifyError` of the model response into error_type, and the
conditional edge evaluates `router` on the merged state. -/
def arbiterRoute (maxRetries : Nat) (iterations : Nat) (response : List Char) : Route :=
  router maxRetries false iterations (some (classifyError response))

end MathAgent

namespace MainAgent

/-- The two route labels of main.py's conditional edge ("research" and
"write", main.py lines 100-103 and 112). -/
inductive Route where
  | research
  | write
deriving DecidableEq

/-- should_continue from main.py lines 100-103: loop back to the
researcher iff the remaining plan is non-empty (Python truthiness of the
list). -/
def should_continue (plan : List String) : Route :=
  if plan ≠ [] then Route.research else Route.write

/-- The state fields of main.py's ResearchState that the research loop
reads or writes: the remaining plan (overwrite merge) and the accumulated
content (operator.add merge). -/
structure ResearchState where
  plan : List String
  content : List String
deriving DecidableEq

/-- researcher_node from main.py lines 42-75: reads plan[0] (an IndexError
- modeled as `none` - when the plan is empty), returns the tail as the new
plan and appends one section note for the consumed query.  The note text
(search plus summarization) is abstracted by the oracle `note`. -/
def researcher_node (note : String → String) (s : ResearchState) :
    Option ResearchState :=
  match s.plan with
  | [] => none
  | query :: remaining =>
      some { plan := remaining, content := s.content ++ [note query] }

/-- The research loop of main.py starting at an invocation of the
researcher node (the planner's static edge enters here): run
researcher_node, then follow the conditional edge, looping while the
router says "research"; returns the final content and the number of
researcher invocations, or `none` on IndexError or fuel exhaustion. -/
def runResearchLoop (note : String → String) :
    Nat → ResearchState → Nat → Option (ResearchState × Nat)
  | 0, _, _ => none
  | fuel + 1, s, count =>
    match researcher_node note s with
    | none => none
    | some s' =>
      match should_continue s'.plan with
      | Route.research => runResearchLoop note fuel s' (count + 1)
      | Route.write => some (s', count + 1)

end MainAgent

namespace DeepResearch

/-- max_loop from pyagents/agents/deep_research_agent.py line 43 (the
inner refinement bound per section). -/
def max_loop : Nat := 2

/-- The control-relevant fields of the deep research agent's AgentState:
the global section plan with its index and completed-section list, and
the per-section topic and loop counter.  The text-valued working fields
(research_plan, research_notes, current_draft, critiques) are written by
the LLM-backed stages and never read by any router, so they are
abstracted away here; completed_sections is tracked by the topic of each
compiled block, in order. -/
structure AgentState where
  section_plan : List String
  current_section_idx : Nat
  completed_topics : List String
  topic : String
  loop_count : Nat
deriving DecidableEq

/-- Observable control events of one run: a section being entered
(section_initiator_node), a refinement pass completing (refiner_node),
and the finalize stage running (final_editor_node). -/
inductive Event where
  | enterSection (topic : String)
  | refinePass (topic : String)
  | finalize
deriving DecidableEq

/-- The nine graph nodes of deep_research_agent.py lines 357-367. -/
inductive Node where
  | section_initiator
  | deep_researcher
  | researcher
  | writer
  | quorum
  | refiner
  | section_compiler
  | final_editor
deriving DecidableEq

/-- The control effect of one node (deep_research_agent.py lines
136-152, 285-299, 301-315, 317-339): section_initiator loads
section_plan[idx] as the topic and resets loop_count; refiner increments
loop_count; section_compiler appends the finished section and advances
the index; the LLM-only nodes leave the control state unchanged. -/
def node_step : Node → AgentState → AgentState × List Event
  | .section_initiator, s =>
      let t := s.section_plan.getD s.current_section_idx ""
      ({ s with topic := t, loop_count := 0 }, [Event.enterSection t])
  | .deep_researcher, s => (s, [])
  | .researcher, s => (s, [])
  | .writer, s => (s, [])
  | .quorum, s => (s, [])
  | .refiner, s =>
      ({ s with loop_count := s.loop_count + 1 }, [Event.refinePass s.topic])
  | .section_compiler, s =>
      ({ s with completed_topics := s.completed_topics ++ [s.topic],
                current_section_idx := s.current_section_idx + 1 }, [])
  | .final_editor, s => (s, [Event.finalize])

/-- check_section_loop from deep_research_agent.py lines 343-346. -/
def check_section_loop (s : AgentState) : Bool :=
  s.loop_count < max_loop

/-- check_global_progress from deep_research_agent.py lines 348-351. -/
def check_global_progress (s : AgentState) : Bool :=
  s.current_section_idx < s.section_plan.length

/-- The edges of deep_research_agent.py lines 370-400 (from
section_initiator onward; the entry edge global_planner →
section_initiator is where our runs start).  `none` is END. -/
def nextNode : Node → AgentState → Option Node
  | .section_initiator, _ => some .deep_researcher
  | .deep_researcher, _ => some .researcher
  | .researcher, _ => some .writer
  | .writer, _ => some .quorum
  | .quorum, _ => some .refiner
  | .refiner, s =>
      if check_section_loop s then some .deep_researcher else some .section_compiler
  | .section_compiler, s =>
      if check_global_progress s then some .section_initiator else some .final_editor
  | .final_editor, _ => none

/-- Fuel-indexed executor for the deep research graph, collecting the
control events in execution order; `none` when the fuel runs out. -/
def runDR : Nat → Node → AgentState → Option (AgentState × List Event)
  | 0, _, _ => none
  | fuel + 1, n, s =>
    let r := node_step n s
    match nextNode n r.1 with
    | none => some (r.1, r.2)
    | some n' =>
      match runDR fuel n' r.1 with
      | none => none
      | some (sEnd, evs) => some (sEnd, r.2 ++ evs)

/-- The state produced by global_planner_node (deep_research_agent.py
lines 128-134) for a given section plan: index 0, nothing completed. -/
def afterGlobalPlanner (plan : List String) : AgentState :=
  { section_plan := plan
    current_section_idx := 0
    completed_topics := []
    topic := ""
    loop_count := 0 }

end DeepResearch

namespace Quorum

/-- AgentState from quorum-deep-research.py lines 92-99: research_notes
is declared `Annotated[List[str], operator.add]` (append-ordered merge);
every other field has overwrite merge. -/
structure AgentState where
  topic : String
  research_plan : List String
  research_notes : List String
  current_draft : String
  critiques : List String
  loop_count : Nat
deriving DecidableEq

/-- A partial state update returned by a stage of
quorum-deep-research.py.  For the overwrite fields, `none` means the
stage did not mention the field; for the append-ordered field
research_notes, the stage's emitted values are concatenated after the
existing ones (an absent key contributes the empty list). -/
structure StateUpdate where
  topic : Option String := none
  research_plan : Option (List String) := none
  research_notes : List String := []
  current_draft : Option String := none
  critiques : Option (List String) := none
  loop_count : Option Nat := none
deriving DecidableEq

/-- The langgraph merge of a partial update into the state: overwrite
fields are replaced when present, and research_notes is merged with
operator.add (current value concatenated with the emitted values). -/
def applyUpdate (s : AgentState) (u : StateUpdate) : AgentState where
  topic := u.topic.getD s.topic
  research_plan := u.research_plan.getD s.research_plan
  research_notes := s.research_notes ++ u.research_notes
  current_draft := u.current_draft.getD s.current_draft
  critiques := u.critiques.getD s.critiques
  loop_count := u.loop_count.getD s.loop_count

/-- A sequence of stage executions applied to a state: every stage
returns a partial update and the engine merges each in order. -/
def runUpdates (s : AgentState) (us : List StateUpdate) : AgentState :=
  us.foldl applyUpdate s

end Quorum

namespace SearchApi

/-- A search result: each provider returns dictionaries with 'title',
'href' and 'body' keys (search_api.py). -/
structure SearchResult where
  title : String
  href : String
  body : String
deriving DecidableEq

/-- A search provider: takes the query and max_results and either
returns a result list or raises (Except.error models a raised
exception). -/
def Provider : Type := String → Nat → Except String (List SearchResult)

/-- DuckDuckGoSearchProvider.search from search_api.py lines 139-154:
wraps the ddgs backend in a catch-all, returning the empty list when the
backend raises. -/
def ddgSearch (backend : Provider) (query : String) (max_results : Nat) :
    List SearchResult :=
  match backend query max_results with
  | Except.ok r => r
  | Except.error _ => []

/-- The provider identifiers of the hybrid chain, in chain order. -/
inductive ProvId where
  | tavily
  | google
  | brave
  | ddg
deriving DecidableEq

/-- HybridSearchProvider.search from search_api.py lines 164-184: try
Tavily, on any exception try Google, then Brave, then fall back to
DuckDuckGo (which never raises). -/
def hybridSearch (tavily google brave : Provider) (ddgBackend : Provider)
    (query : String) (max_results : Nat) : List SearchResult :=
  match tavily query max_results with
  | Except.ok r => r
  | Except.error _ =>
    match google query max_results with
    | Except.ok r => r
    | Except.error _ =>
      match brave query max_results with
      | Except.ok r => r
      | Except.error _ => ddgSearch ddgBackend query max_results

/-- The call trace of HybridSearchProvider.search: which providers are
invoked, with the exact arguments passed to each, in invocation order.
This mirrors the control flow of lines 164-184: each `search(query,
max_results)` call is recorded, and the chain stops at the first
provider that does not raise. -/
def hybridCalls (tavily google brave : Provider) (query : String)
    (max_results : Nat) : List (ProvId × String × Nat) :=
  (ProvId.tavily, query, max_results) ::
    match tavily query max_results with
    | Except.ok _ => []
    | Except.error _ =>
      (ProvId.google, query, max_results) ::
        match google query max_results with
        | Except.ok _ => []
        | Except.error _ =>
          (ProvId.brave, query, max_results) ::
            match brave query max_results with
            | Except.ok _ => []
            | Except.error _ => [(ProvId.ddg, query, max_results)]

/-- Whether a provider call succeeded (did not raise). -/
def callOk (p : Provider) (query : String) (max_results : Nat) : Bool :=
  match p query max_results with
  | Except.ok _ => true
  | Except.error _ => false

/-- A provider that always raises, for concrete instantiations. -/
def alwaysRaise : Provider := fun _ _ => Except.error "boom"

end SearchApi

namespace ExtractCode

/-- The fence marker of a markdown code block. -/
def fence : List Char := "```".toList

/-- The semantics of `re.search("```" + lang + "(.*?)```", text,
re.DOTALL)` as used by extract_code (pyagents/utils/__init__.py lines
20-23): the leftmost position where "```" ++ lang occurs followed
somewhere later by "```"; the non-greedy group captures up to the first
such closing fence.  Returns the captured group, or `none` when the
pattern matches nowhere. -/
def regexExtract (lang : List Char) : List Char → Option (List Char)
  | [] => none
  | c :: r =>
    if (fence ++ lang).isPrefixOf (c :: r) then
      match PyStr.findSub fence ((c :: r).drop (fence ++ lang).length) with
      | some j => some (((c :: r).drop (fence ++ lang).length).take j)
      | none => regexExtract lang r
    else regexExtract lang r

/-- Python's str.split(sep) for a non-empty separator: cut the text at
every non-overlapping occurrence of sep, left to right. -/
def pySplit (sep : List Char) (text : List Char) : List (List Char) :=
  if hsep : sep = [] then [text]
  else
    match hfind : PyStr.findSub sep text with
    | none => [text]
    | some i => text.take i :: pySplit sep (text.drop (i + sep.length))
termination_by text.length
decreasing_by
  simp only [List.length_drop]
  have hne : text ≠ [] := by
    intro h
    subst h
    cases sep with
    | nil => exact hsep rfl
    | cons a l => simp [PyStr.findSub, List.isPrefixOf] at hfind
  have hlen : 0 < text.length := List.length_pos.mpr hne
  have hs : 0 < sep.length := List.length_pos.mpr hsep
  omega

/-- extract_code from pyagents/utils/__init__.py lines 18-28 (the same
function, with lang = "lean", appears in math_agent.py lines 53-62):
regex-match the first lang-tagged fenced block; otherwise, if "```"
occurs anywhere, return text.split("```")[1] stripped; otherwise the
stripped input. -/
def extract_code (text : List Char) (lang : List Char) : List Char :=
  match regexExtract lang text with
  | some content => PyStr.pyStrip content
  | none =>
    if PyStr.containsSub fence text then
      PyStr.pyStrip ((pySplit fence text).getD 1 [])
    else
      PyStr.pyStrip text

end ExtractCode

namespace CodingAgent

/-- Merging an empty partial update leaves the state unchanged. -/
theorem applyUpdate_empty (s : SandboxState) : applyUpdate s {} = s := rfl

/-- One full pass of the retry-loop body (coder → dependency_manager →
executor → verifier) under always-failing validation: the iteration
counter goes up by one, the coder counter goes up by one, and the router
terminates iff the new counter has reached the bound. -/
theorem run_coder_step (maxRetries : Nat) (o : Oracles)
    (hfail : ∀ c t, (o.execResult c t).2 = false)
    (fuel : Nat) (s : SandboxState) (cnt : Nat) :
    ∃ s', s'.iterations = s.iterations + 1 ∧
      run maxRetries o (fuel + 4) Node.coder s cnt =
        (if maxRetries ≤ s.iterations + 1 then some (s', cnt + 1)
         else run maxRetries o fuel Node.coder s' (cnt + 1)) := by
  refine ⟨applyUpdate (applyUpdate s (coder_node o s))
      (executor_node o (applyUpdate s (coder_node o s))), ?_, ?_⟩
  · simp [applyUpdate, executor_node, coder_node]
  · have h1 : run maxRetries o (fuel + 4) Node.coder s cnt
        = run maxRetries o (fuel + 1) Node.verifier
            (applyUpdate (applyUpdate s (coder_node o s))
              (executor_node o (applyUpdate s (coder_node o s)))) (cnt + 1) := rfl
    rw [h1]
    set s3 := applyUpdate (applyUpdate s (coder_node o s))
      (executor_node o (applyUpdate s (coder_node o s))) with hs3
    have hsucc : s3.success = false := by
      simp [hs3, applyUpdate, executor_node, hfail]
    have hit : s3.iterations = s.iterations + 1 := by
      simp [hs3, applyUpdate, executor_node, coder_node]
    have hver : verifier_node o s3 = {} := by simp [verifier_node, hsucc]
    simp only [run, node_run, hver, applyUpdate_empty]
    simp only [nextNode, hsucc, hit, should_continue]
    by_cases hmr : maxRetries ≤ s.iterations + 1
    · simp [hmr]
    · simp [hmr]

end CodingAgent

namespace CodingAgent

/-- Under always-failing validation, starting at the coder with `j` more
iterations allowed before the bound, the loop executes the body exactly
`j` more times and terminates. -/
theorem run_coder_count (maxRetries : Nat) (o : Oracles)
    (hfail : ∀ c t, (o.execResult c t).2 = false) :
    ∀ (j fuel : Nat) (s : SandboxState) (cnt : Nat),
      1 ≤ j → s.iterations + j = maxRetries → 4 * j ≤ fuel →
      (run maxRetries o fuel Node.coder s cnt).map Prod.snd = some (cnt + j) := by
  intro j
  induction j with
  | zero => omega
  | succ j ih =>
    intro fuel s cnt _ hbound hfuel
    obtain ⟨f, rfl⟩ : ∃ f, fuel = f + 4 := ⟨fuel - 4, by omega⟩
    obtain ⟨s', hs', hrun⟩ := run_coder_step maxRetries o hfail f s cnt
    rw [hrun]
    by_cases hmr : maxRetries ≤ s.iterations + 1
    · rw [if_pos hmr]
      have hj : j = 0 := by omega
      subst hj
      rfl
    · rw [if_neg hmr]
      have hj : 1 ≤ j := by omega
      rw [ih f s' (cnt + 1) hj (by omega) (by omega)]
      have : cnt + 1 + j = cnt + (j + 1) := by omega
      rw [this]

end CodingAgent

namespace CodingAgent

/-- No edge of the coding agent graph leads back to the tester: the
static edges chain tester → coder → dependency_manager → executor →
verifier, and the conditional edge maps "retry" to the coder and "end"
to END. -/
theorem nextNode_ne_tester (maxRetries : Nat) (n : Node) (s : SandboxState) :
    nextNode maxRetries n s ≠ some Node.tester := by
  cases n <;> simp only [nextNode] <;> try simp
  cases should_continue maxRetries s.success s.iterations <;> simp

/-- Every node other than the tester returns a partial update that does
not mention test_code. -/
theorem node_test_code_none (o : Oracles) (n : Node) (s : SandboxState)
    (h : n ≠ Node.tester) : (node_run o n s).test_code = none := by
  cases n with
  | tester => exact absurd rfl h
  | coder => rfl
  | dependency_manager => rfl
  | executor => rfl
  | verifier =>
    simp only [node_run, verifier_node]
    split_ifs <;> rfl

/-- Frame property: a run started at any node other than the tester
never changes test_code. -/
theorem run_test_code_frame (maxRetries : Nat) (o : Oracles) :
    ∀ (fuel : Nat) (n : Node) (s : SandboxState) (cnt : Nat)
      (r : SandboxState × Nat),
      n ≠ Node.tester → run maxRetries o fuel n s cnt = some r →
      r.1.test_code = s.test_code := by
  intro fuel
  induction fuel with
  | zero =>
    intro n s cnt r _ hr
    simp [run] at hr
  | succ f ih =>
    intro n s cnt r hn hr
    have hupd : (applyUpdate s (node_run o n s)).test_code = s.test_code := by
      simp [applyUpdate, node_test_code_none o n s hn]
    simp only [run] at hr
    rcases hnx : nextNode maxRetries n (applyUpdate s (node_run o n s)) with _ | n'
    · rw [hnx] at hr
      injection hr with h
      subst h
      simpa using hupd
    · rw [hnx] at hr
      have hn' : n' ≠ Node.tester := by
        intro heq
        exact nextNode_ne_tester maxRetries n _ (heq ▸ hnx)
      exact (ih n' _ _ r hn' hr).trans hupd

end CodingAgent

/-- C1 counterexample: the claim says that with MAX_RETRIES = n and
validation never succeeding, the loop body executes n+1 times; in the
code, with n = 1 and always-failing validation, the body (counted by
coder executions) runs exactly once, not 1+1 = 2 times: the coder
increments `iterations` at the start of the body, so `should_continue`
already sees iterations = 1 ≥ 1 after the first pass. -/
theorem flat_retry_one_body_at_bound_one :
    (CodingAgent.run 1 CodingAgent.failingOracles 12 CodingAgent.Node.tester
        CodingAgent.initState 0).map Prod.snd = some 1 ∧ (1 : Nat) ≠ 1 + 1 :=
  ⟨rfl, by omega⟩

/-- C1 (amended): for every bound n, the flat bounded retry loop of the
coding agent under never-succeeding validation executes its body exactly
max n 1 times in total: n times when n ≥ 1 (i.e. n-1 repair attempts
after the initial attempt), and once when n = 0 because the entry edge
runs the body unconditionally before the router first checks the bound. -/
theorem flat_retry_total_bodies (n : Nat) (o : CodingAgent.Oracles)
    (hfail : ∀ c t, (o.execResult c t).2 = false) :
    (CodingAgent.run n o (4 * n + 8) CodingAgent.Node.tester
        CodingAgent.initState 0).map Prod.snd = some (max n 1) := by
  have h0 : CodingAgent.run n o (4 * n + 8) CodingAgent.Node.tester
        CodingAgent.initState 0
      = CodingAgent.run n o (4 * n + 7) CodingAgent.Node.coder
        (CodingAgent.applyUpdate CodingAgent.initState
          (CodingAgent.tester_node o CodingAgent.initState)) 0 := rfl
  rw [h0]
  have hit : (CodingAgent.applyUpdate CodingAgent.initState
      (CodingAgent.tester_node o CodingAgent.initState)).iterations = 0 := rfl
  rcases Nat.eq_zero_or_pos n with hn | hn
  · subst hn
    rw [show 4 * 0 + 7 = 3 + 4 from by norm_num]
    obtain ⟨s', _, hrun⟩ := CodingAgent.run_coder_step 0 o hfail 3
      (CodingAgent.applyUpdate CodingAgent.initState
        (CodingAgent.tester_node o CodingAgent.initState)) 0
    rw [hrun, if_pos (Nat.zero_le _)]
    rfl
  · rw [CodingAgent.run_coder_count n o hfail n (4 * n + 7) _ 0 hn
      (by omega) (by omega)]
    congr 1
    omega

/-- C1 witness: the amended theorem applied at n = 3 with concretely
failing oracles. -/
theorem flat_retry_total_bodies_witness :
    (CodingAgent.run 3 CodingAgent.failingOracles (4 * 3 + 8)
        CodingAgent.Node.tester CodingAgent.initState 0).map Prod.snd =
      some (max 3 1) :=
  flat_retry_total_bodies 3 CodingAgent.failingOracles (fun _ _ => rfl)

/-- C2: with the source's MAX_RETRIES = 10, the coding agent router
returns "retry" for a failing state with iterations = 9, and "end" at
iterations = 10 regardless of the validation result. -/
theorem router_boundary_cases :
    CodingAgent.should_continue CodingAgent.MAX_RETRIES false 9 =
      CodingAgent.Route.retry ∧
    ∀ success : Bool,
      CodingAgent.should_continue CodingAgent.MAX_RETRIES success 10 =
        CodingAgent.Route.terminal := by
  refine ⟨rfl, ?_⟩
  intro success
  cases success <;> rfl

/-- C9: the test suite is generated at most once per run of the coding
agent: no edge leads back to the tester, the tester returns an empty
partial update on every state with iterations > 0 and non-empty
test_code, and a run started at any node other than the tester (in
particular the retry edge's target, the coder) leaves the test_code
field exactly as it was. -/
theorem tester_once_and_test_code_stable (maxRetries : Nat)
    (o : CodingAgent.Oracles) :
    (∀ (n : CodingAgent.Node) (s : CodingAgent.SandboxState),
        CodingAgent.nextNode maxRetries n s ≠ some CodingAgent.Node.tester)
    ∧ (∀ s : CodingAgent.SandboxState,
        0 < s.iterations → s.test_code ≠ "" →
        CodingAgent.tester_node o s = {})
    ∧ (∀ (fuel : Nat) (n : CodingAgent.Node) (s : CodingAgent.SandboxState)
        (cnt : Nat) (r : CodingAgent.SandboxState × Nat),
        n ≠ CodingAgent.Node.tester →
        CodingAgent.run maxRetries o fuel n s cnt = some r →
        r.1.test_code = s.test_code) := by
  refine ⟨CodingAgent.nextNode_ne_tester maxRetries, ?_,
    CodingAgent.run_test_code_frame maxRetries o⟩
  intro s h1 h2
  rw [CodingAgent.tester_node, if_pos ⟨h1, h2⟩]

/-- C9 witness: at the concrete state reached after a first pass
(iterations = 1, test_code = "x"), the tester is inert and a full
retried run from the coder keeps test_code = "x". -/
theorem tester_once_and_test_code_stable_witness :
    CodingAgent.nextNode 10 CodingAgent.Node.verifier CodingAgent.initState ≠
      some CodingAgent.Node.tester
    ∧ CodingAgent.tester_node CodingAgent.failingOracles
        { CodingAgent.initState with iterations := 1, test_code := "x" } = {}
    ∧ (CodingAgent.run 10 CodingAgent.failingOracles 48 CodingAgent.Node.coder
        { CodingAgent.initState with iterations := 1, test_code := "x" } 0).map
        (fun r => r.1.test_code) = some "x" := by
  refine ⟨(tester_once_and_test_code_stable 10 CodingAgent.failingOracles).1 _ _,
    (tester_once_and_test_code_stable 10 CodingAgent.failingOracles).2.1 _
      (by norm_num) (by decide), ?_⟩
  obtain ⟨r, hr⟩ : ∃ r, CodingAgent.run 10 CodingAgent.failingOracles 48
      CodingAgent.Node.coder
      { CodingAgent.initState with iterations := 1, test_code := "x" } 0 = some r :=
    ⟨_, rfl⟩
  rw [hr]
  have := (tester_once_and_test_code_stable 10 CodingAgent.failingOracles).2.2
    48 CodingAgent.Node.coder
    { CodingAgent.initState with iterations := 1, test_code := "x" } 0 r
    (by decide) hr
  simpa using this

/-- C3 counterexample: a classifier input that contains both markers
contains "TYPE: SYNTAX", yet the arbiter routes it to the theorist (the
"TYPE: LOGIC" test comes first in arbiter_node), refuting "input
containing TYPE: SYNTAX always routes to the formalizer". -/
theorem classifier_both_markers_routes_theorist :
    PyStr.containsSub MathAgent.syntaxMarker "TYPE: LOGIC TYPE: SYNTAX".toList = true
    ∧ MathAgent.arbiterRoute MathAgent.MAX_RETRIES 0
        "TYPE: LOGIC TYPE: SYNTAX".toList ≠ MathAgent.Route.formalizer := by
  constructor
  · decide
  · decide

/-- C3 (amended): under the preconditions success = false and
iterations < MAX_RETRIES, the classifier-plus-router always resolves to
exactly one of the two repair routes: theorist iff the response contains
"TYPE: LOGIC" (that marker takes precedence when both occur), and
formalizer otherwise - in particular for inputs containing
"TYPE: SYNTAX" but not "TYPE: LOGIC", and for inputs containing neither
marker via the documented default label SYNTAX.  The route is never left
unresolved. -/
theorem classifier_route_resolution (response : List Char) (iterations : Nat)
    (h : iterations < MathAgent.MAX_RETRIES) :
    (MathAgent.arbiterRoute MathAgent.MAX_RETRIES iterations response =
        MathAgent.Route.theorist ∨
      MathAgent.arbiterRoute MathAgent.MAX_RETRIES iterations response =
        MathAgent.Route.formalizer)
    ∧ (MathAgent.arbiterRoute MathAgent.MAX_RETRIES iterations response =
        MathAgent.Route.theorist ↔
      PyStr.containsSub MathAgent.logicMarker response = true) := by
  have hlt : ¬ iterations ≥ MathAgent.MAX_RETRIES := not_le.mpr h
  by_cases hm : PyStr.containsSub MathAgent.logicMarker response
  · simp [MathAgent.arbiterRoute, MathAgent.router, MathAgent.classifyError, hm, hlt]
  · by_cases hs : PyStr.containsSub MathAgent.syntaxMarker response <;>
      simp [MathAgent.arbiterRoute, MathAgent.router, MathAgent.classifyError,
        hm, hs, hlt]

/-- C3 witness: the amended theorem applied at iterations = 0 to an
input carrying the "TYPE: LOGIC" marker, which routes to the theorist. -/
theorem classifier_route_resolution_witness :
    (0 : Nat) < MathAgent.MAX_RETRIES ∧
    MathAgent.arbiterRoute MathAgent.MAX_RETRIES 0 "TYPE: LOGIC x".toList =
      MathAgent.Route.theorist :=
  ⟨by decide, (classifier_route_resolution "TYPE: LOGIC x".toList 0
    (by decide)).2.mpr (by decide)⟩

namespace MainAgent

/-- Consuming the whole remaining plan: starting at the researcher with a
non-empty plan, the loop invokes the researcher once per query, in plan
order, appends one note per query to content, and hands over to the
writer with an empty remaining plan. -/
theorem runResearchLoop_spec (note : String → String) :
    ∀ (plan : List String) (content : List String) (fuel cnt : Nat),
      plan ≠ [] → plan.length ≤ fuel →
      runResearchLoop note fuel ⟨plan, content⟩ cnt =
        some (⟨[], content ++ plan.map note⟩, cnt + plan.length) := by
  intro plan
  induction plan with
  | nil => intro _ _ _ h _; exact absurd rfl h
  | cons q rest ih =>
    intro content fuel cnt _ hfuel
    obtain ⟨f, rfl⟩ : ∃ f, fuel = f + 1 :=
      ⟨fuel - 1, by simp at hfuel; omega⟩
    simp only [runResearchLoop, researcher_node]
    rcases rest with _ | ⟨q2, rest2⟩
    · simp [should_continue]
    · have hroute : should_continue (q2 :: rest2) = Route.research := by
        simp [should_continue]
      rw [hroute]
      rw [ih (content ++ [note q]) f (cnt + 1) (by simp)
        (by simp at hfuel ⊢; omega)]
      simp [List.append_assoc]
      omega

end MainAgent

/-- C8 counterexample: when the planner emits an empty plan (k = 0), the
static edge planner → researcher still invokes the researcher, whose
plan[0] access fails (IndexError, modeled as `none`): the run does not
execute the loop 0 times and reach the writer as the claim requires. -/
theorem research_loop_empty_plan_crashes :
    MainAgent.researcher_node (fun q => q) ⟨[], []⟩ = none
    ∧ MainAgent.runResearchLoop (fun q => q) 5 ⟨[], []⟩ 0 = none :=
  ⟨rfl, rfl⟩

/-- C8 (amended): the router loops back to the researcher iff the
remaining plan is non-empty, and each researcher invocation consumes
exactly the head of the plan; therefore for every NON-EMPTY starting
plan of length k the researcher runs exactly k times, always seeing a
non-empty plan, before control reaches the writer, with one note
appended per query in plan order.  (For an empty starting plan the
researcher is still invoked once via the static planner → researcher
edge and its plan[0] access fails - see the counterexample.) -/
theorem research_loop_runs_plan_length (note : String → String) :
    (∀ plan : List String,
        MainAgent.should_continue plan = MainAgent.Route.research ↔ plan ≠ [])
    ∧ (∀ (q : String) (rest content : List String),
        MainAgent.researcher_node note ⟨q :: rest, content⟩ =
          some ⟨rest, content ++ [note q]⟩)
    ∧ (∀ (plan content : List String) (fuel : Nat),
        plan ≠ [] → plan.length ≤ fuel →
        MainAgent.runResearchLoop note fuel ⟨plan, content⟩ 0 =
          some (⟨[], content ++ plan.map note⟩, plan.length)) := by
  refine ⟨?_, fun q rest content => rfl, ?_⟩
  · intro plan
    cases plan <;> simp [MainAgent.should_continue]
  · intro plan content fuel hne hfuel
    simpa using MainAgent.runResearchLoop_spec note plan content fuel 0 hne hfuel

/-- C8 witness: the amended theorem applied to the two-query plan
["a", "b"]: the researcher runs exactly twice and the writer receives
both notes in order. -/
theorem research_loop_runs_plan_length_witness :
    MainAgent.runResearchLoop (fun q => q) 2 ⟨["a", "b"], []⟩ 0 =
      some (⟨[], ["a", "b"]⟩, 2) :=
  (research_loop_runs_plan_length (fun q => q)).2.2 ["a", "b"] [] 2
    (by simp) (by norm_num)

/-- C4: for the deep research agent with section plan ["A", "B"] and the
inner bound max_loop = 2 (the inner loop has no early exit: its router
only compares loop_count with the bound), the run entering at
section_initiator visits section A then section B in that order, performs
exactly 2 refinement passes (refiner executions) per section, and runs
the finalize stage exactly once, after both sections. -/
theorem nested_loop_trace_two_sections :
    (DeepResearch.runDR 30 DeepResearch.Node.section_initiator
        (DeepResearch.afterGlobalPlanner ["A", "B"])).map Prod.snd =
      some [DeepResearch.Event.enterSection "A",
            DeepResearch.Event.refinePass "A",
            DeepResearch.Event.refinePass "A",
            DeepResearch.Event.enterSection "B",
            DeepResearch.Event.refinePass "B",
            DeepResearch.Event.refinePass "B",
            DeepResearch.Event.finalize] := rfl

namespace Quorum

/-- The final value of the append-ordered field after a sequence of
merges: the initial contents followed by each update's emitted notes, in
emission order. -/
theorem runUpdates_research_notes (us : List StateUpdate) :
    ∀ s : AgentState,
      (runUpdates s us).research_notes =
        s.research_notes ++ (us.map StateUpdate.research_notes).flatten := by
  induction us with
  | nil => intro s; simp [runUpdates]
  | cons u us ih =>
    intro s
    have h1 : runUpdates s (u :: us) = runUpdates (applyUpdate s u) us := rfl
    rw [h1, ih (applyUpdate s u)]
    simp [applyUpdate, List.append_assoc]

end Quorum

/-- C5: research_notes is declared with the list-concatenation merge
policy (operator.add) in quorum-deep-research.py; across every sequence
of stage executions its length never decreases (for a single merge and
hence at every intermediate step), and the resulting value is the
initial contents followed by the per-stage emissions concatenated in
emission order. -/
theorem append_field_monotone_and_ordered (s : Quorum.AgentState)
    (us : List Quorum.StateUpdate) :
    (∀ (s' : Quorum.AgentState) (u : Quorum.StateUpdate),
        s'.research_notes.length ≤ (Quorum.applyUpdate s' u).research_notes.length)
    ∧ (Quorum.runUpdates s us).research_notes =
        s.research_notes ++ (us.map Quorum.StateUpdate.research_notes).flatten
    ∧ s.research_notes.length ≤ (Quorum.runUpdates s us).research_notes.length := by
  refine ⟨?_, Quorum.runUpdates_research_notes us s, ?_⟩
  · intro s' u
    simp [Quorum.applyUpdate]
  · rw [Quorum.runUpdates_research_notes us s]
    simp

/-- C6: the fallback chain of HybridSearchProvider.search: Tavily is
always called; Google is called iff Tavily raised; Brave iff Tavily and
Google raised; DuckDuckGo iff all three raised; every call forwards the
query and max_results unchanged; no provider is called twice; and when
every provider fails (including the DuckDuckGo backend, whose wrapper
swallows the exception) the result is the empty list rather than an
error.  (See RESULTS: the def line of this method also evaluates
`self.num_results` as a default argument at class-definition time, which
is a NameError in Python - the chain body itself behaves as claimed.) -/
theorem hybrid_fallback_chain (pt pg pb bd : SearchApi.Provider)
    (q : String) (m : Nat) :
    ((SearchApi.ProvId.tavily, q, m) ∈ SearchApi.hybridCalls pt pg pb q m)
    ∧ ((SearchApi.ProvId.google, q, m) ∈ SearchApi.hybridCalls pt pg pb q m ↔
        SearchApi.callOk pt q m = false)
    ∧ ((SearchApi.ProvId.brave, q, m) ∈ SearchApi.hybridCalls pt pg pb q m ↔
        SearchApi.callOk pt q m = false ∧ SearchApi.callOk pg q m = false)
    ∧ ((SearchApi.ProvId.ddg, q, m) ∈ SearchApi.hybridCalls pt pg pb q m ↔
        SearchApi.callOk pt q m = false ∧ SearchApi.callOk pg q m = false ∧
        SearchApi.callOk pb q m = false)
    ∧ (∀ c ∈ SearchApi.hybridCalls pt pg pb q m, c.2.1 = q ∧ c.2.2 = m)
    ∧ (SearchApi.hybridCalls pt pg pb q m).Nodup
    ∧ (SearchApi.callOk pt q m = false → SearchApi.callOk pg q m = false →
        SearchApi.callOk pb q m = false → SearchApi.callOk bd q m = false →
        SearchApi.hybridSearch pt pg pb bd q m = []) := by
  rcases hpt : pt q m with e1 | r1
  · rcases hpg : pg q m with e2 | r2
    · rcases hpb : pb q m with e3 | r3
      · rcases hbd : bd q m with e4 | r4
        · simp [SearchApi.hybridCalls, SearchApi.hybridSearch,
            SearchApi.ddgSearch, SearchApi.callOk, hpt, hpg, hpb, hbd]
        · simp [SearchApi.hybridCalls, SearchApi.hybridSearch,
            SearchApi.ddgSearch, SearchApi.callOk, hpt, hpg, hpb, hbd]
      · simp [SearchApi.hybridCalls, SearchApi.hybridSearch,
          SearchApi.ddgSearch, SearchApi.callOk, hpt, hpg, hpb]
    · simp [SearchApi.hybridCalls, SearchApi.hybridSearch,
        SearchApi.ddgSearch, SearchApi.callOk, hpt, hpg]
  · simp [SearchApi.hybridCalls, SearchApi.hybridSearch,
      SearchApi.ddgSearch, SearchApi.callOk, hpt]

/-- C6 witness: with every provider raising, Google is called (after
Tavily's failure) and the chain returns the empty list. -/
theorem hybrid_fallback_chain_witness :
    SearchApi.hybridSearch SearchApi.alwaysRaise SearchApi.alwaysRaise
      SearchApi.alwaysRaise SearchApi.alwaysRaise "q" 5 = []
    ∧ (SearchApi.ProvId.google, "q", 5) ∈
        SearchApi.hybridCalls SearchApi.alwaysRaise SearchApi.alwaysRaise
          SearchApi.alwaysRaise "q" 5 :=
  ⟨(hybrid_fallback_chain SearchApi.alwaysRaise SearchApi.alwaysRaise
      SearchApi.alwaysRaise SearchApi.alwaysRaise "q" 5).2.2.2.2.2.2
      rfl rfl rfl rfl,
  ((hybrid_fallback_chain SearchApi.alwaysRaise SearchApi.alwaysRaise
      SearchApi.alwaysRaise SearchApi.alwaysRaise "q" 5).2.1).mpr rfl⟩

namespace ExtractCode

/-- The second element of Python's text.split(sep): the segment strictly
between the first occurrence of sep and the next following occurrence
(the remainder of the text when there is no second occurrence). -/
theorem pySplit_getD_one (sep : List Char) (hsep : sep ≠ []) (text : List Char)
    (i : Nat) (hfind : PyStr.findSub sep text = some i) :
    (pySplit sep text).getD 1 [] =
      (match PyStr.findSub sep (text.drop (i + sep.length)) with
       | none => text.drop (i + sep.length)
       | some j => (text.drop (i + sep.length)).take j) := by
  rw [pySplit]
  rw [dif_neg hsep]
  split
  · rename_i heq
    rw [heq] at hfind
    exact Option.noConfusion hfind
  · rename_i i' heq
    rw [heq] at hfind
    injection hfind with h
    subst h
    rw [pySplit]
    rw [dif_neg hsep]
    split
    · rename_i heq2
      rw [heq2]
      rfl
    · rename_i j heq2
      rw [heq2]
      rfl

end ExtractCode

/-- C7 counterexample: the input "hello ``` world" contains a single,
unclosed fence marker, so no fenced block (tagged or generic) exists in
it; the claim then requires the raw input trimmed, but extract_code
returns "world" - the text after the lone fence (text.split("```")[1]). -/
theorem extract_code_unclosed_fence :
    ExtractCode.regexExtract "python".toList "hello ``` world".toList = none
    ∧ ExtractCode.extract_code "hello ``` world".toList "python".toList =
        "world".toList
    ∧ "world".toList ≠ PyStr.pyStrip "hello ``` world".toList := by
  refine ⟨rfl, ?_, by decide⟩
  have h6 : PyStr.findSub ExtractCode.fence "hello ``` world".toList = some 6 := rfl
  have h := ExtractCode.pySplit_getD_one ExtractCode.fence (by decide)
    "hello ``` world".toList 6 h6
  have hnone : PyStr.findSub ExtractCode.fence
      (("hello ``` world".toList).drop (6 + ExtractCode.fence.length)) = none := rfl
  rw [hnone] at h
  unfold ExtractCode.extract_code
  rw [show ExtractCode.regexExtract "python".toList "hello ``` world".toList =
    none from rfl]
  rw [show PyStr.containsSub ExtractCode.fence "hello ``` world".toList =
    true from rfl]
  rw [if_pos rfl]
  rw [h]
  decide

/-- C7 (amended): extract_code returns the trimmed captured group of the
first lang-tagged fenced block (leftmost match, non-greedy up to the
next closing fence) when one exists; otherwise, whenever "```" occurs
anywhere in the text - even unclosed, or opening a block tagged with a
different language - it returns the trimmed text between the first "```"
and the next following "```", or to the end of the text when there is no
second fence; only when the text contains no "```" at all does it return
the raw input trimmed. -/
theorem extract_code_spec (text lang : List Char) :
    ExtractCode.extract_code text lang =
      (match ExtractCode.regexExtract lang text with
       | some content => PyStr.pyStrip content
       | none =>
         match PyStr.findSub ExtractCode.fence text with
         | none => PyStr.pyStrip text
         | some i =>
           match PyStr.findSub ExtractCode.fence
               (text.drop (i + ExtractCode.fence.length)) with
           | none => PyStr.pyStrip (text.drop (i + ExtractCode.fence.length))
           | some j =>
             PyStr.pyStrip
               ((text.drop (i + ExtractCode.fence.length)).take j)) := by
  unfold ExtractCode.extract_code
  cases hre : ExtractCode.regexExtract lang text with
  | some content => rfl
  | none =>
    cases hf : PyStr.findSub ExtractCode.fence text with
    | none =>
      have hcs : PyStr.containsSub ExtractCode.fence text = false := by
        simp [PyStr.containsSub, hf]
      simp [hcs]
    | some i =>
      have hcs : PyStr.containsSub ExtractCode.fence text = true := by
        simp [PyStr.containsSub, hf]
      have hne : ExtractCode.fence ≠ [] := by decide
      simp only [hcs, if_true]
      rw [ExtractCode.pySplit_getD_one ExtractCode.fence hne text i hf]
      cases hf2 : PyStr.findSub ExtractCode.fence
          (text.drop (i + ExtractCode.fence.length)) with
      | none => rfl
      | some j => rfl
